import Mathlib

/-!
Verification of the POD (proof-of-delivery) OCR extraction pipeline.

This file shallowly embeds the core of the repository:
- the document / page / usage data model of `packages/db/src/schema.ts`,
- the extraction pipeline of `packages/api/src/services/ocr-extraction.ts`
  (`extractPODDataFromPDF`, `extractPageData`, `saveExtractedPageData`,
  `saveTokenUsage`, `updateDocumentStatus`),
- the read/write endpoints of `packages/api/src/routers/document.ts`
  (`upload`, `getDocument`, `getExtractedData`, `getExtractionStatus`,
  `listDocuments`) and the express endpoint `POST /api/upload-document`.

External effects (the Gemini model client, `Date.now()`, `crypto.randomUUID()`,
PDF parsing) are modelled as an environment: each page attempt is given the
model-call outcome, the request id that `crypto.randomUUID()` produced, and the
`Date.now()` readings the code would observe.  Database writes are modelled as
pure transformations of a `Store` value; the run is additionally represented as
an explicit list of write events so that intermediate states are visible.
-/

namespace POD

/-- Document extraction status enum (`documentExtactionStatusEnum` in
`schema.ts`): IDEAL, PROCESSING, COMPLETED, FAILED. -/
inductive Status where
  | IDEAL
  | PROCESSING
  | COMPLETED
  | FAILED
deriving DecidableEq, Repr

/-- A row of the `upload_documents` table (fields used by the API surface). -/
structure DocumentRow where
  documentId : String
  userId : String
  instructionNumber : String
  documentName : String
  fileUrl : String
  fileSizeInBytes : Nat
  companyId : Option String
  branchId : Option String
  extractionStatus : Status
  extractionId : Option String
  createdAt : Nat
deriving DecidableEq, Repr

/-- A row of the `extracted_page_data` table: three parallel arrays with
nullable elements, optional scalar fields and the uncertainty list. -/
structure PageRow where
  documentId : String
  pageNumber : Nat
  containerNumbers : List (Option String)
  containerSizes : List (Option String)
  fullEmptyStatuses : List (Option String)
  pageDate : Option String
  instructionNumber : Option String
  vehicleNumber : Option String
  collectedFrom : Option String
  deliveredTo : Option String
  unsureFields : List String
deriving DecidableEq, Repr

/-- A row of the `document_token_usage` table. -/
structure UsageRow where
  documentId : String
  requestId : String
  inputTokens : Nat
  toolUsePromptTokens : Nat
  cachedContentTokens : Nat
  candidatesTokens : Nat
  thoughtsTokens : Nat
  outputTokens : Nat
  totalTokens : Nat
  durationMs : Int
deriving DecidableEq, Repr

/-- The persistent store: the three tables the pipeline touches. -/
structure Store where
  documents : List DocumentRow
  pages : List PageRow
  usage : List UsageRow
deriving DecidableEq, Repr

/-- The in-memory `ExtractedPODData` interface of `ocr-extraction.ts`. -/
structure ExtractedPODData where
  pageNumber : Nat
  containerNumbers : List (Option String)
  containerSizes : List (Option String)
  fullEmptyStatuses : List (Option String)
  pageDate : Option String
  instructionNumber : Option String
  vehicleNumber : Option String
  collectedFrom : Option String
  deliveredTo : Option String
  unsureFields : List String
deriving DecidableEq, Repr

/-- The validated output of the model for one page
(`ExtractedPODSchema` in `ocr-extraction.ts`, after zod validation and the
`unsureFields` default). -/
structure ExtractedPOD where
  containerNumbers : List (Option String)
  containerSizes : List (Option String)
  fullEmptyStatuses : List (Option String)
  pageDate : Option String
  instructionNumber : Option String
  vehicleNumber : Option String
  collectedFrom : Option String
  deliveredTo : Option String
  unsureFields : List String
deriving DecidableEq, Repr

/-- Usage metadata on the AI SDK result (`result.usage`); each count may be
absent, matching the `|| 0` guards in the source. -/
structure ModelUsage where
  promptTokens : Option Nat
  completionTokens : Option Nat
  totalTokens : Option Nat
deriving DecidableEq, Repr

/-- Outcome of one `generateObject` call: validated data plus optional usage,
or a thrown error (transport or schema validation failure). -/
inductive ModelResult where
  | success (data : ExtractedPOD) (usage : Option ModelUsage)
  | failure
deriving DecidableEq, Repr

/-- The `TokenUsageData` interface of `ocr-extraction.ts`: optional categories
are `Option` valued, matching the `?` fields of the interface. -/
structure TokenUsageData where
  requestId : String
  inputTokens : Nat
  toolUsePromptTokens : Option Nat
  cachedContentTokens : Option Nat
  candidatesTokens : Option Nat
  thoughtsTokens : Option Nat
  outputTokens : Nat
  totalTokens : Nat
  durationMs : Int
deriving DecidableEq, Repr

/-- Environment of one page attempt: the model-call outcome, the request id
`crypto.randomUUID()` returns at the start of `extractPageData`, the
`Date.now()` reading when the page call begins (`callStart`, not read by the
code but needed to state the spec's duration claim), and the `Date.now()`
reading at the token-usage save point (`saveTime`). -/
structure PageEnv where
  result : ModelResult
  requestId : String
  callStart : Nat
  saveTime : Nat

/-- Environment of one whole run of `extractPODDataFromPDF`: the
`crypto.randomUUID()` extraction id, the `Date.now()` reading taken at the
top of the function (`startTime`), and the result of `pdf(pdfBuffer)` —
`none` when PDF parsing throws, `some n` when it reports `n` pages.  `pages k`
is the environment of the attempt for page number `k`. -/
structure RunEnv where
  extractionId : String
  startTime : Nat
  numPages : Option Nat
  pages : Nat → PageEnv

/-- Drizzle `.set` semantics for `extractionId`: an `undefined` argument leaves
the column untouched, a present argument overwrites it. -/
def updateExtractionId (arg old : Option String) : Option String :=
  match arg with
  | some e => some e
  | none => old

/-- The row update performed by `updateDocumentStatus`:
`db.update(uploadDocuments).set({extractionStatus, extractionId}).where(eq(documentId))`. -/
def updateDocRows (documentId : String) (status : Status)
    (extractionId : Option String) (docs : List DocumentRow) : List DocumentRow :=
  docs.map fun d =>
    if d.documentId == documentId then
      { d with extractionStatus := status,
               extractionId := updateExtractionId extractionId d.extractionId }
    else d

/-- `updateDocumentStatus(documentId, status, extractionId?, db?)` of
`ocr-extraction.ts`: when the `db` argument is absent it returns at once
without touching the store (`if (!db) return;`). -/
def updateDocumentStatus (documentId : String) (status : Status)
    (extractionId : Option String) (db : Option Unit) (s : Store) : Store :=
  match db with
  | none => s
  | some _ => { s with documents := updateDocRows documentId status extractionId s.documents }

/-- Build the `ExtractedPODData` value from the validated model output
(`pageData` construction in `extractPageData`). -/
def mkPageData (pageNumber : Nat) (d : ExtractedPOD) : ExtractedPODData :=
  { pageNumber := pageNumber
    containerNumbers := d.containerNumbers
    containerSizes := d.containerSizes
    fullEmptyStatuses := d.fullEmptyStatuses
    pageDate := d.pageDate
    instructionNumber := d.instructionNumber
    vehicleNumber := d.vehicleNumber
    collectedFrom := d.collectedFrom
    deliveredTo := d.deliveredTo
    unsureFields := d.unsureFields }

/-- The placeholder entry pushed by the catch block of
`extractPODDataFromPDF` when a page attempt throws: all arrays empty and the
all-fields uncertainty marker. -/
def placeholderData (pageNumber : Nat) : ExtractedPODData :=
  { pageNumber := pageNumber
    containerNumbers := []
    containerSizes := []
    fullEmptyStatuses := []
    pageDate := none
    instructionNumber := none
    vehicleNumber := none
    collectedFrom := none
    deliveredTo := none
    unsureFields := ["*all*"] }

/-- The row inserted by `saveExtractedPageData`. -/
def pageRowOf (documentId : String) (p : ExtractedPODData) : PageRow :=
  { documentId := documentId
    pageNumber := p.pageNumber
    containerNumbers := p.containerNumbers
    containerSizes := p.containerSizes
    fullEmptyStatuses := p.fullEmptyStatuses
    pageDate := p.pageDate
    instructionNumber := p.instructionNumber
    vehicleNumber := p.vehicleNumber
    collectedFrom := p.collectedFrom
    deliveredTo := p.deliveredTo
    unsureFields := p.unsureFields }

/-- `saveExtractedPageData(documentId, pageData, db)`: a single insert into
`extracted_page_data`. -/
def saveExtractedPageData (documentId : String) (pageData : ExtractedPODData)
    (s : Store) : Store :=
  { s with pages := s.pages ++ [pageRowOf documentId pageData] }

/-- The row inserted by `saveTokenUsage`: each optional category defaults to 0
(`usage.toolUsePromptTokens || 0` and so on). -/
def usageRowOf (documentId : String) (usage : TokenUsageData) : UsageRow :=
  { documentId := documentId
    requestId := usage.requestId
    inputTokens := usage.inputTokens
    toolUsePromptTokens := usage.toolUsePromptTokens.getD 0
    cachedContentTokens := usage.cachedContentTokens.getD 0
    candidatesTokens := usage.candidatesTokens.getD 0
    thoughtsTokens := usage.thoughtsTokens.getD 0
    outputTokens := usage.outputTokens
    totalTokens := usage.totalTokens
    durationMs := usage.durationMs }

/-- `saveTokenUsage(documentId, usage, db)`: a single insert into
`document_token_usage`. -/
def saveTokenUsage (documentId : String) (usage : TokenUsageData) (s : Store) : Store :=
  { s with usage := s.usage ++ [usageRowOf documentId usage] }

/-- The `TokenUsageData` value built in `extractPageData` after a successful
call that reported usage: `inputTokens = promptTokens || 0`,
`candidatesTokens = outputTokens = completionTokens || 0`,
`totalTokens = totalTokens || 0`, and
`durationMs = Date.now() - startTime` where `startTime` is the run start
passed down from `extractPODDataFromPDF`. -/
def mkTokenUsage (requestId : String) (u : ModelUsage) (saveTime startTime : Nat) :
    TokenUsageData :=
  { requestId := requestId
    inputTokens := u.promptTokens.getD 0
    toolUsePromptTokens := none
    cachedContentTokens := none
    candidatesTokens := some (u.completionTokens.getD 0)
    thoughtsTokens := none
    outputTokens := u.completionTokens.getD 0
    totalTokens := u.totalTokens.getD 0
    durationMs := (saveTime : Int) - (startTime : Int) }

/-- One database write performed during a run. -/
inductive Event where
  | statusWrite (documentId : String) (status : Status) (extractionId : Option String)
  | pageInsert (row : PageRow)
  | usageInsert (row : UsageRow)
deriving DecidableEq, Repr

/-- Apply one write event to the store.  A status write is exactly
`updateDocumentStatus` with the database handle present. -/
def applyEvent (s : Store) (e : Event) : Store :=
  match e with
  | .statusWrite documentId status extractionId =>
      updateDocumentStatus documentId status extractionId (some ()) s
  | .pageInsert row => { s with pages := s.pages ++ [row] }
  | .usageInsert row => { s with usage := s.usage ++ [row] }

/-- The writes performed by one call of `extractPageData` for page `pageNum`:
nothing on failure (the error propagates to the orchestrator's catch, which
does not persist anything); on success the page insert followed, when the
model reported usage, by the usage insert. -/
def pageAttemptEvents (documentId : String) (pageNum : Nat) (penv : PageEnv)
    (startTime : Nat) : List Event :=
  match penv.result with
  | .failure => []
  | .success d usage =>
      Event.pageInsert (pageRowOf documentId (mkPageData pageNum d)) ::
        match usage with
        | none => []
        | some u =>
            [Event.usageInsert
              (usageRowOf documentId (mkTokenUsage penv.requestId u penv.saveTime startTime))]

/-- The writes of the sequential page loop for pages `1..n`, in order. -/
def pagesEvents (documentId : String) (env : RunEnv) : Nat → List Event
  | 0 => []
  | n + 1 =>
      pagesEvents documentId env n ++
        pageAttemptEvents documentId (n + 1) (env.pages (n + 1)) env.startTime

/-- The in-memory result entry for page `k`: the extracted data on success,
the placeholder pushed by the catch block on failure. -/
def pageAttemptResult (k : Nat) (penv : PageEnv) : ExtractedPODData :=
  match penv.result with
  | .failure => placeholderData k
  | .success d _ => mkPageData k d

/-- The `extractedPages` array returned by `extractPODDataFromPDF` for an
`n`-page document. -/
def runResultList (env : RunEnv) : Nat → List ExtractedPODData
  | 0 => []
  | n + 1 => runResultList env n ++ [pageAttemptResult (n + 1) (env.pages (n + 1))]

/-- All database writes of one run of `extractPODDataFromPDF`, in program
order: the PROCESSING status write first; then, if PDF parsing failed, only
the FAILED status write (the catch block); otherwise the per-page writes
followed by the COMPLETED status write. -/
def runEvents (documentId : String) (env : RunEnv) : List Event :=
  Event.statusWrite documentId Status.PROCESSING (some env.extractionId) ::
    match env.numPages with
    | none => [Event.statusWrite documentId Status.FAILED (some env.extractionId)]
    | some n =>
        pagesEvents documentId env n ++
          [Event.statusWrite documentId Status.COMPLETED (some env.extractionId)]

/-- `extractPODDataFromPDF(documentId, pdfBuffer, db)`: returns the
`extractedPages` array (`none` models the re-thrown error when PDF parsing
fails) and the store after all writes. -/
def extractPODDataFromPDF (documentId : String) (env : RunEnv) (s : Store) :
    Option (List ExtractedPODData) × Store :=
  ((env.numPages.map fun n => runResultList env n),
    (runEvents documentId env).foldl applyEvent s)

/-- Projection of the page-insert events. -/
def eventPage : Event → Option PageRow
  | .pageInsert r => some r
  | _ => none

/-- Projection of the usage-insert events. -/
def eventUsage : Event → Option UsageRow
  | .usageInsert r => some r
  | _ => none

/-- Projection of the status-write events. -/
def eventStatus : Event → Option (String × Status × Option String)
  | .statusWrite documentId status extractionId => some (documentId, status, extractionId)
  | _ => none

/-- Page rows inserted by a list of events, in order. -/
def insertedPages (evs : List Event) : List PageRow := evs.filterMap eventPage

/-- Usage rows inserted by a list of events, in order. -/
def insertedUsage (evs : List Event) : List UsageRow := evs.filterMap eventUsage

/-- The successive status values written by a list of events, in order. -/
def statusSeq (evs : List Event) : List Status :=
  evs.filterMap fun e => (eventStatus e).map fun w => w.2.1

/-- Point lookup of a document row (`findFirst` on `uploadDocuments`). -/
def findDoc (docs : List DocumentRow) (documentId : String) : Option DocumentRow :=
  docs.find? fun d => d.documentId == documentId

/-- The status a concurrent poller reads for a document. -/
def getStatus (s : Store) (documentId : String) : Option Status :=
  (findDoc s.documents documentId).map fun d => d.extractionStatus

/-- Ordering used by `listDocuments` and `getDocumentsByUser`:
`desc(docs.createdAt)`. -/
def byCreatedAtDesc (a b : DocumentRow) : Prop := b.createdAt ≤ a.createdAt

instance : DecidableRel byCreatedAtDesc := fun a b =>
  inferInstanceAs (Decidable (b.createdAt ≤ a.createdAt))

instance : IsTotal DocumentRow byCreatedAtDesc :=
  ⟨fun a b => Nat.le_total b.createdAt a.createdAt⟩

instance : IsTrans DocumentRow byCreatedAtDesc :=
  ⟨fun _ _ _ hab hbc => Nat.le_trans hbc hab⟩

/-- Ordering used by `getExtractedData`: `asc(data.pageNumber)`. -/
def byPageNumberAsc (a b : PageRow) : Prop := a.pageNumber ≤ b.pageNumber

instance : DecidableRel byPageNumberAsc := fun a b =>
  inferInstanceAs (Decidable (a.pageNumber ≤ b.pageNumber))

instance : IsTotal PageRow byPageNumberAsc :=
  ⟨fun a b => Nat.le_total a.pageNumber b.pageNumber⟩

instance : IsTrans PageRow byPageNumberAsc :=
  ⟨fun _ _ _ hab hbc => Nat.le_trans hab hbc⟩

/-- Raw (pre-validation) input of the `listDocuments` procedure; each field may
be absent, and the whole object may be absent (`.optional()`). -/
structure RawListInput where
  limit : Option Int
  offset : Option Int
deriving DecidableEq, Repr

/-- Zod validation of the `limit` field:
`z.number().int().positive().max(100).default(20)` — absent means 20, a
present value is accepted iff it is positive and at most 100. -/
def parseLimit : Option Int → Option Nat
  | none => some 20
  | some l => if 0 < l ∧ l ≤ 100 then some l.toNat else none

/-- Zod validation of the `offset` field:
`z.number().int().nonnegative().default(0)`. -/
def parseOffset : Option Int → Option Nat
  | none => some 0
  | some o => if 0 ≤ o then some o.toNat else none

/-- Zod validation of the `listDocuments` input, the whole object optional
(`.optional()`), combined with the handler's `input || {}` defaults.  Returns
the accepted `(limit, offset)` pair, or `none` when validation rejects. -/
def parseListInput : Option RawListInput → Option (Nat × Nat)
  | none => some (20, 0)
  | some raw =>
      match parseLimit raw.limit, parseOffset raw.offset with
      | some l, some o => some (l, o)
      | _, _ => none

/-- `documentRouter.listDocuments`: all documents ordered by creation time
descending, then paginated with `offset` and `limit`. -/
def listDocuments (s : Store) (limit offset : Nat) : List DocumentRow :=
  (((s.documents).insertionSort byCreatedAtDesc).drop offset).take limit

/-- `documentRouter.getExtractedData`: the document's page rows ordered by
page number ascending. -/
def getExtractedData (s : Store) (documentId : String) : List PageRow :=
  ((s.pages.filter fun r => r.documentId == documentId).insertionSort byPageNumberAsc)

/-- `documentRouter.getDocument`: point lookup, throwing
`Error("Document not found")` when the id does not exist. -/
def getDocument (s : Store) (documentId : String) : Except String DocumentRow :=
  match findDoc s.documents documentId with
  | none => .error "Document not found"
  | some d => .ok d

/-- Shape of the `getExtractionStatus` response. -/
structure ExtractionStatusResponse where
  documentId : String
  status : Status
  extractionId : Option String
deriving DecidableEq, Repr

/-- `documentRouter.getExtractionStatus`: id, current status and extraction-run
identifier, or `Error("Document not found")`. -/
def getExtractionStatus (s : Store) (documentId : String) :
    Except String ExtractionStatusResponse :=
  match findDoc s.documents documentId with
  | none => .error "Document not found"
  | some d => .ok ⟨d.documentId, d.extractionStatus, d.extractionId⟩

/-- Validated input of the tRPC `upload` mutation. -/
structure UploadInput where
  userId : String
  instructionNumber : String
  documentName : String
  fileUrl : String
  fileSizeInBytes : Nat
  companyId : Option String
  branchId : Option String
deriving DecidableEq, Repr

/-- Response of the tRPC `upload` mutation: the new document id and the status
of the row just inserted. -/
structure UploadResponse where
  documentId : String
  extractionStatus : Status
deriving DecidableEq, Repr

/-- `documentRouter.upload`: inserts the document row with
`extractionStatus: "IDEAL"` and returns `{documentId, extractionStatus}`.
The returned `Bool` records whether the extraction pipeline was invoked for
the new document: the handler only logs a TODO and never calls
`extractPODDataFromPDF`, so it is `false`. -/
def documentRouterUpload (input : UploadInput) (newId : String) (createdAt : Nat)
    (s : Store) : UploadResponse × Store × Bool :=
  let row : DocumentRow :=
    { documentId := newId
      userId := input.userId
      instructionNumber := input.instructionNumber
      documentName := input.documentName
      fileUrl := input.fileUrl
      fileSizeInBytes := input.fileSizeInBytes
      companyId := input.companyId
      branchId := input.branchId
      extractionStatus := Status.IDEAL
      extractionId := none
      createdAt := createdAt }
  (⟨row.documentId, row.extractionStatus⟩,
    { s with documents := s.documents ++ [row] }, false)

/-- The multipart request of the express `POST /api/upload-document` endpoint:
an optional uploaded file (multer has already rejected non-PDF content) and
the form fields. -/
structure ExpressUploadRequest where
  file : Option (String × Nat)
  userId : Option String
  instructionNumber : Option String
  companyId : Option String
  branchId : Option String
deriving DecidableEq, Repr

/-- HTTP response of the express upload endpoint.  The success body carries
`success`, `documentId` and `message` only — it has no status field. -/
inductive ExpressUploadResult where
  | badRequest (error : String)
  | ok (documentId : String) (message : String)
deriving DecidableEq, Repr

/-- `POST /api/upload-document`: validates the request, inserts the document
row with `extractionStatus: "IDEAL"`, then fires
`extractPODDataFromPDF(...).catch(...)` without awaiting it and responds.
The returned `Bool` records whether extraction was fired; the returned store
is the state at response time, before any extraction write. -/
def expressUploadDocument (req : ExpressUploadRequest) (newId : String)
    (createdAt : Nat) (s : Store) : ExpressUploadResult × Store × Bool :=
  match req.file with
  | none => (.badRequest "No file uploaded", s, false)
  | some (originalname, size) =>
      match req.userId, req.instructionNumber with
      | some userId, some instructionNumber =>
          let row : DocumentRow :=
            { documentId := newId
              userId := userId
              instructionNumber := instructionNumber
              documentName := originalname
              fileUrl := "memory://" ++ originalname
              fileSizeInBytes := size
              companyId := req.companyId
              branchId := req.branchId
              extractionStatus := Status.IDEAL
              extractionId := none
              createdAt := createdAt }
          (.ok row.documentId "Document uploaded successfully. Processing started.",
            { s with documents := s.documents ++ [row] }, true)
      | _, _ =>
          (.badRequest "Missing required fields: userId and instructionNumber", s, false)

/-- Apply the status writes of an event list to the document table. -/
def applyStatusWrites (evs : List Event) (docs : List DocumentRow) : List DocumentRow :=
  evs.foldl
    (fun ds e =>
      match e with
      | .statusWrite documentId status extractionId =>
          updateDocRows documentId status extractionId ds
      | _ => ds)
    docs

/-- The page row persisted for page `k` when the attempt succeeds. -/
def successPageRow (documentId : String) (k : Nat) (penv : PageEnv) : Option PageRow :=
  match penv.result with
  | .failure => none
  | .success d _ => some (pageRowOf documentId (mkPageData k d))

/-- The usage row persisted for page `k` when the attempt succeeds and the
model reported usage. -/
def successUsageRow (documentId : String) (_k : Nat) (penv : PageEnv)
    (startTime : Nat) : Option UsageRow :=
  match penv.result with
  | .success _ (some u) =>
      some (usageRowOf documentId (mkTokenUsage penv.requestId u penv.saveTime startTime))
  | _ => none

/-- The terminal status a run writes: FAILED when PDF parsing throws,
COMPLETED otherwise (page failures notwithstanding). -/
def runTerminalStatus (env : RunEnv) : Status :=
  match env.numPages with
  | none => Status.FAILED
  | some _ => Status.COMPLETED

/-! ### Concrete fixtures used by witnesses and counterexamples -/

/-- A store with no rows at all. -/
def emptyStore : Store := ⟨[], [], []⟩

/-- A concrete uploaded document row. -/
def sampleDocRow : DocumentRow :=
  { documentId := "doc-1"
    userId := "user-1"
    instructionNumber := "INS-1"
    documentName := "pod.pdf"
    fileUrl := "memory://pod.pdf"
    fileSizeInBytes := 1000
    companyId := none
    branchId := none
    extractionStatus := Status.IDEAL
    extractionId := none
    createdAt := 1 }

/-- A store holding exactly `sampleDocRow`. -/
def docStore1 : Store := ⟨[sampleDocRow], [], []⟩

/-- Concrete validated model output for one page. -/
def sampleData : ExtractedPOD :=
  { containerNumbers := [some "ABCD1234567"]
    containerSizes := [some "40ft"]
    fullEmptyStatuses := [some "FULL"]
    pageDate := some "2024-01-01"
    instructionNumber := some "INS-1"
    vehicleNumber := some "TRK-77"
    collectedFrom := some "Depot A"
    deliveredTo := some "Depot B"
    unsureFields := [] }

/-- Concrete usage metadata reported by the model. -/
def sampleUsage : ModelUsage :=
  { promptTokens := some 100, completionTokens := some 40, totalTokens := some 140 }

/-- A successful page attempt whose call began at time 10 and whose usage was
saved at time 15. -/
def samplePageEnvOk : PageEnv :=
  { result := .success sampleData (some sampleUsage)
    requestId := "req-1"
    callStart := 10
    saveTime := 15 }

/-- A page attempt whose model call throws. -/
def samplePageEnvFail : PageEnv :=
  { result := .failure, requestId := "req-2", callStart := 20, saveTime := 25 }

/-- A one-page run whose single page succeeds; the run starts at time 0. -/
def sampleEnv : RunEnv :=
  { extractionId := "run-1", startTime := 0, numPages := some 1,
    pages := fun _ => samplePageEnvOk }

/-- A one-page run whose single page attempt throws. -/
def failEnv1 : RunEnv :=
  { extractionId := "run-f", startTime := 0, numPages := some 1,
    pages := fun _ => samplePageEnvFail }

/-- A two-page run: page 1 succeeds, page 2 throws. -/
def mixedEnv : RunEnv :=
  { extractionId := "run-2", startTime := 0, numPages := some 2,
    pages := fun k => if k = 2 then samplePageEnvFail else samplePageEnvOk }

/-- A page record whose parallel arrays contain nulls, as in the claim:
`containerNumbers=["A1",null]`, `containerSizes=["20ft",null]`,
`fullEmptyStatuses=["FULL",null]`. -/
def nullArraysPage : ExtractedPODData :=
  { pageNumber := 1
    containerNumbers := [some "A1", none]
    containerSizes := [some "20ft", none]
    fullEmptyStatuses := [some "FULL", none]
    pageDate := none
    instructionNumber := none
    vehicleNumber := none
    collectedFrom := none
    deliveredTo := none
    unsureFields := ["containerNumbers"] }

/-- A listed document row created at time `t`. -/
def listedDoc (name : String) (t : Nat) : DocumentRow :=
  { documentId := name
    userId := "user-1"
    instructionNumber := "INS"
    documentName := name
    fileUrl := "memory://" ++ name
    fileSizeInBytes := 1
    companyId := none
    branchId := none
    extractionStatus := Status.IDEAL
    extractionId := none
    createdAt := t }

/-- A store with 5 documents created at the distinct times 1..5, in insertion
order. -/
def fiveDocStore : Store :=
  ⟨[listedDoc "a" 1, listedDoc "b" 2, listedDoc "c" 3, listedDoc "d" 4,
    listedDoc "e" 5], [], []⟩

/-- Rank of a status along the lifecycle order
IDEAL → PROCESSING → \x7bCOMPLETED, FAILED\x7d. -/
def statusRank : Status → Nat
  | .IDEAL => 0
  | .PROCESSING => 1
  | .COMPLETED => 2
  | .FAILED => 2

/-- Claim C1 as stated, instantiated at a store: after the run, exactly `n`
page rows are persisted for the document, and each failed page's placeholder
row is among them. -/
def claimC1Persisted (documentId : String) (env : RunEnv) (n : Nat) (s : Store) : Prop :=
  ((extractPODDataFromPDF documentId env s).2.pages.filter
      fun r => r.documentId == documentId).length = n ∧
  ∀ k < n, (env.pages (k + 1)).result = ModelResult.failure →
    pageRowOf documentId (placeholderData (k + 1)) ∈
      (extractPODDataFromPDF documentId env s).2.pages

/-- Claim C2 as stated, instantiated at a store: after the run, a persisted
page row for page `k` exists with all three arrays empty and
`unsureFields = ["*all*"]`, and the document finishes COMPLETED. -/
def claimC2Persisted (documentId : String) (env : RunEnv) (k : Nat) (s : Store) : Prop :=
  (∃ r ∈ (extractPODDataFromPDF documentId env s).2.pages,
      r.documentId = documentId ∧ r.pageNumber = k ∧
      r.containerNumbers = [] ∧ r.containerSizes = [] ∧
      r.fullEmptyStatuses = [] ∧ r.unsureFields = ["*all*"]) ∧
  getStatus (extractPODDataFromPDF documentId env s).2 documentId = some Status.COMPLETED

/-- Claim C3 as stated: every persisted usage row's duration equals the
wall-clock time elapsed since its page's call began. -/
def claimC3Durations (documentId : String) (env : RunEnv) (n : Nat) : Prop :=
  ∀ k < n, ∀ r ∈ insertedUsage (runEvents documentId env),
    r.requestId = (env.pages (k + 1)).requestId →
    r.durationMs =
      ((env.pages (k + 1)).saveTime : Int) - ((env.pages (k + 1)).callStart : Int)

/-- One usage-reporting successful page attempt whose call began at time `t`
and whose usage was saved at `t + 5`, reporting `total` total tokens. -/
def usagePage (rid : String) (total : Nat) (t : Nat) : PageEnv :=
  { result := .success sampleData (some ⟨some 50, some 25, some total⟩)
    requestId := rid
    callStart := t
    saveTime := t + 5 }

/-- A three-page run whose pages each report usage with total tokens
100, 150 and 200 respectively. -/
def usageEnv3 : RunEnv :=
  { extractionId := "run-3", startTime := 0, numPages := some 3,
    pages := fun k =>
      if k = 1 then usagePage "u-1" 100 10
      else if k = 2 then usagePage "u-2" 150 20
      else usagePage "u-3" 200 30 }

/-- Concrete validated input of the tRPC `upload` mutation. -/
def sampleUploadInput : UploadInput :=
  { userId := "user-1"
    instructionNumber := "INS-1"
    documentName := "pod.pdf"
    fileUrl := "https://files.example/pod.pdf"
    fileSizeInBytes := 1234
    companyId := none
    branchId := none }

/-- Concrete multipart request for the express upload endpoint. -/
def sampleExpressReq : ExpressUploadRequest :=
  { file := some ("pod.pdf", 1234)
    userId := some "user-1"
    instructionNumber := some "INS-1"
    companyId := none
    branchId := none }

/-! ### Plumbing lemmas about the event fold -/

theorem pages_applyEvent (s : Store) (e : Event) :
    (applyEvent s e).pages = s.pages ++ (eventPage e).toList := by
  cases e with
  | statusWrite documentId status extractionId =>
      simp [applyEvent, updateDocumentStatus, eventPage]
  | pageInsert r => simp [applyEvent, eventPage]
  | usageInsert r => simp [applyEvent, eventPage]

theorem usage_applyEvent (s : Store) (e : Event) :
    (applyEvent s e).usage = s.usage ++ (eventUsage e).toList := by
  cases e with
  | statusWrite documentId status extractionId =>
      simp [applyEvent, updateDocumentStatus, eventUsage]
  | pageInsert r => simp [applyEvent, eventUsage]
  | usageInsert r => simp [applyEvent, eventUsage]

theorem pages_foldl (evs : List Event) :
    ∀ s : Store, (evs.foldl applyEvent s).pages = s.pages ++ insertedPages evs := by
  induction evs with
  | nil => intro s; simp [insertedPages]
  | cons e evs ih =>
      intro s
      simp only [List.foldl_cons, ih, pages_applyEvent, insertedPages,
        List.filterMap_cons]
      cases h : eventPage e <;> simp [h]

theorem usage_foldl (evs : List Event) :
    ∀ s : Store, (evs.foldl applyEvent s).usage = s.usage ++ insertedUsage evs := by
  induction evs with
  | nil => intro s; simp [insertedUsage]
  | cons e evs ih =>
      intro s
      simp only [List.foldl_cons, ih, usage_applyEvent, insertedUsage,
        List.filterMap_cons]
      cases h : eventUsage e <;> simp [h]

theorem documents_foldl (evs : List Event) :
    ∀ s : Store, (evs.foldl applyEvent s).documents = applyStatusWrites evs s.documents := by
  induction evs with
  | nil => intro s; simp [applyStatusWrites]
  | cons e evs ih =>
      intro s
      cases e with
      | statusWrite documentId status extractionId =>
          simp [List.foldl_cons, ih, applyStatusWrites, applyEvent, updateDocumentStatus]
      | pageInsert r => simp [List.foldl_cons, ih, applyStatusWrites, applyEvent]
      | usageInsert r => simp [List.foldl_cons, ih, applyStatusWrites, applyEvent]

theorem findDoc_updateDocRows (documentId : String) (status : Status)
    (extractionId : Option String) (docs : List DocumentRow) :
    findDoc (updateDocRows documentId status extractionId docs) documentId =
      (findDoc docs documentId).map fun d =>
        { d with extractionStatus := status,
                 extractionId := updateExtractionId extractionId d.extractionId } := by
  induction docs with
  | nil => simp [findDoc, updateDocRows]
  | cons d docs ih =>
      by_cases h : d.documentId == documentId
      · simp only [findDoc, updateDocRows, List.map_cons, List.find?_cons] at ih ⊢
        rw [if_pos h]
        simp only [h, if_pos]
        simp
      · simp only [findDoc, updateDocRows, List.map_cons, List.find?_cons] at ih ⊢
        rw [if_neg h]
        simp only [List.find?_cons, h, if_neg]
        simpa [updateDocRows, findDoc] using ih

/-! ### Characterization of the writes of one run -/

theorem insertedPages_pageAttempt (documentId : String) (k : Nat) (penv : PageEnv)
    (startTime : Nat) :
    insertedPages (pageAttemptEvents documentId k penv startTime) =
      (successPageRow documentId k penv).toList := by
  cases h : penv.result with
  | failure => simp [insertedPages, pageAttemptEvents, successPageRow, h]
  | success d usage =>
      cases usage <;>
        simp [insertedPages, pageAttemptEvents, successPageRow, h, eventPage]

theorem insertedUsage_pageAttempt (documentId : String) (k : Nat) (penv : PageEnv)
    (startTime : Nat) :
    insertedUsage (pageAttemptEvents documentId k penv startTime) =
      (successUsageRow documentId k penv startTime).toList := by
  cases h : penv.result with
  | failure => simp [insertedUsage, pageAttemptEvents, successUsageRow, h]
  | success d usage =>
      cases usage <;>
        simp [insertedUsage, pageAttemptEvents, successUsageRow, h, eventUsage]

theorem statusSeq_append (l₁ l₂ : List Event) :
    statusSeq (l₁ ++ l₂) = statusSeq l₁ ++ statusSeq l₂ := by
  simp [statusSeq]

theorem statusSeq_pageAttempt (documentId : String) (k : Nat) (penv : PageEnv)
    (startTime : Nat) :
    statusSeq (pageAttemptEvents documentId k penv startTime) = [] := by
  cases h : penv.result with
  | failure => simp [statusSeq, pageAttemptEvents, h]
  | success d usage =>
      cases usage <;> simp [statusSeq, pageAttemptEvents, h, eventStatus]

theorem insertedPages_append (l₁ l₂ : List Event) :
    insertedPages (l₁ ++ l₂) = insertedPages l₁ ++ insertedPages l₂ := by
  simp [insertedPages]

theorem insertedUsage_append (l₁ l₂ : List Event) :
    insertedUsage (l₁ ++ l₂) = insertedUsage l₁ ++ insertedUsage l₂ := by
  simp [insertedUsage]

theorem insertedPages_pagesEvents (documentId : String) (env : RunEnv) (n : Nat) :
    insertedPages (pagesEvents documentId env n) =
      (List.range n).filterMap fun i =>
        successPageRow documentId (i + 1) (env.pages (i + 1)) := by
  induction n with
  | zero => simp [pagesEvents, insertedPages]
  | succ n ih =>
      rw [pagesEvents, insertedPages_append, ih, insertedPages_pageAttempt,
        List.range_succ, List.filterMap_append]
      cases h : successPageRow documentId (n + 1) (env.pages (n + 1)) <;> simp [h]

theorem insertedUsage_pagesEvents (documentId : String) (env : RunEnv) (n : Nat) :
    insertedUsage (pagesEvents documentId env n) =
      (List.range n).filterMap fun i =>
        successUsageRow documentId (i + 1) (env.pages (i + 1)) env.startTime := by
  induction n with
  | zero => simp [pagesEvents, insertedUsage]
  | succ n ih =>
      rw [pagesEvents, insertedUsage_append, ih, insertedUsage_pageAttempt,
        List.range_succ, List.filterMap_append]
      cases h : successUsageRow documentId (n + 1) (env.pages (n + 1)) env.startTime <;>
        simp [h]

theorem statusSeq_pagesEvents (documentId : String) (env : RunEnv) (n : Nat) :
    statusSeq (pagesEvents documentId env n) = [] := by
  induction n with
  | zero => simp [pagesEvents, statusSeq]
  | succ n ih =>
      rw [pagesEvents, statusSeq_append, ih, statusSeq_pageAttempt]
      rfl

theorem statusSeq_runEvents (documentId : String) (env : RunEnv) :
    statusSeq (runEvents documentId env) =
      [Status.PROCESSING, runTerminalStatus env] := by
  cases h : env.numPages with
  | none => simp [statusSeq, runEvents, h, runTerminalStatus, eventStatus]
  | some n =>
      have hp := statusSeq_pagesEvents documentId env n
      rw [statusSeq] at hp
      rw [runEvents, h, runTerminalStatus, statusSeq, List.filterMap_cons,
        List.filterMap_append, hp]
      simp [eventStatus, h]

theorem insertedPages_runEvents (documentId : String) (env : RunEnv) (n : Nat)
    (h : env.numPages = some n) :
    insertedPages (runEvents documentId env) =
      (List.range n).filterMap fun i =>
        successPageRow documentId (i + 1) (env.pages (i + 1)) := by
  rw [runEvents, h]
  rw [insertedPages, List.filterMap_cons]
  simp only [eventPage]
  rw [List.filterMap_append]
  have := insertedPages_pagesEvents documentId env n
  rw [insertedPages] at this
  rw [this]
  simp [eventPage]

theorem insertedUsage_runEvents (documentId : String) (env : RunEnv) (n : Nat)
    (h : env.numPages = some n) :
    insertedUsage (runEvents documentId env) =
      (List.range n).filterMap fun i =>
        successUsageRow documentId (i + 1) (env.pages (i + 1)) env.startTime := by
  rw [runEvents, h]
  rw [insertedUsage, List.filterMap_cons]
  simp only [eventUsage]
  rw [List.filterMap_append]
  have := insertedUsage_pagesEvents documentId env n
  rw [insertedUsage] at this
  rw [this]
  simp [eventUsage]

theorem applyStatusWrites_append (l₁ l₂ : List Event) (docs : List DocumentRow) :
    applyStatusWrites (l₁ ++ l₂) docs = applyStatusWrites l₂ (applyStatusWrites l₁ docs) := by
  simp [applyStatusWrites, List.foldl_append]

theorem applyStatusWrites_pageAttempt (documentId : String) (k : Nat) (penv : PageEnv)
    (startTime : Nat) (docs : List DocumentRow) :
    applyStatusWrites (pageAttemptEvents documentId k penv startTime) docs = docs := by
  cases h : penv.result with
  | failure => simp [applyStatusWrites, pageAttemptEvents, h]
  | success d usage =>
      cases usage <;> simp [applyStatusWrites, pageAttemptEvents, h]

theorem applyStatusWrites_pagesEvents (documentId : String) (env : RunEnv) (n : Nat)
    (docs : List DocumentRow) :
    applyStatusWrites (pagesEvents documentId env n) docs = docs := by
  induction n with
  | zero => simp [pagesEvents, applyStatusWrites]
  | succ n ih =>
      rw [pagesEvents, applyStatusWrites_append, ih, applyStatusWrites_pageAttempt]

theorem documents_runEvents (documentId : String) (env : RunEnv) (s : Store) :
    ((runEvents documentId env).foldl applyEvent s).documents =
      updateDocRows documentId (runTerminalStatus env) (some env.extractionId)
        (updateDocRows documentId Status.PROCESSING (some env.extractionId)
          s.documents) := by
  rw [documents_foldl]
  cases h : env.numPages with
  | none =>
      simp [runEvents, h, applyStatusWrites, runTerminalStatus]
  | some n =>
      rw [runEvents, h]
      rw [show (Event.statusWrite documentId Status.PROCESSING (some env.extractionId) ::
          (pagesEvents documentId env n ++
            [Event.statusWrite documentId Status.COMPLETED (some env.extractionId)]) =
          [Event.statusWrite documentId Status.PROCESSING (some env.extractionId)] ++
          pagesEvents documentId env n ++
            [Event.statusWrite documentId Status.COMPLETED (some env.extractionId)])
          from by simp]
      rw [applyStatusWrites_append, applyStatusWrites_append,
        applyStatusWrites_pagesEvents]
      simp [applyStatusWrites, runTerminalStatus, h]

theorem getStatus_run (documentId : String) (env : RunEnv) (s : Store)
    (hs : (findDoc s.documents documentId).isSome) :
    getStatus ((runEvents documentId env).foldl applyEvent s) documentId =
      some (runTerminalStatus env) := by
  rcases Option.isSome_iff_exists.mp hs with ⟨d, hd⟩
  rw [getStatus, documents_runEvents, findDoc_updateDocRows, findDoc_updateDocRows, hd]
  rfl

theorem runResultList_eq_map (env : RunEnv) (n : Nat) :
    runResultList env n =
      (List.range n).map fun i => pageAttemptResult (i + 1) (env.pages (i + 1)) := by
  induction n with
  | zero => simp [runResultList]
  | succ n ih =>
      rw [runResultList, ih, List.range_succ, List.map_append]
      simp

theorem pageAttemptResult_pageNumber (k : Nat) (penv : PageEnv) :
    (pageAttemptResult k penv).pageNumber = k := by
  cases h : penv.result <;> simp [pageAttemptResult, h, mkPageData, placeholderData]

theorem successPageRow_pageNumber (documentId : String) (k : Nat) (penv : PageEnv)
    (r : PageRow) (h : successPageRow documentId k penv = some r) :
    r.pageNumber = k ∧ r.documentId = documentId := by
  cases hr : penv.result with
  | failure => rw [successPageRow, hr] at h; cases h
  | success d usage =>
      rw [successPageRow, hr] at h
      cases h
      simp [pageRowOf, mkPageData]

/-! ### Claims -/

/-- Claim C9: calling `updateDocumentStatus` with the database handle argument
absent returns normally, performs no status update, and leaves the store
entirely unchanged. -/
theorem claim_C9_no_db_noop (documentId : String) (status : Status)
    (extractionId : Option String) (s : Store) :
    updateDocumentStatus documentId status extractionId none s = s := rfl

/-- Claim C10: in every usage row persisted by the extraction pipeline,
`outputTokens` equals `candidatesTokens` (both come from the model's
completion-token count) and `toolUsePromptTokens`, `cachedContentTokens` and
`thoughtsTokens` are all 0, because `extractPageData` never supplies those
categories and `saveTokenUsage` defaults them to 0. -/
theorem claim_C10_usage_invariant (documentId : String) (env : RunEnv)
    (r : UsageRow) (hr : r ∈ insertedUsage (runEvents documentId env)) :
    r.outputTokens = r.candidatesTokens ∧ r.toolUsePromptTokens = 0 ∧
      r.cachedContentTokens = 0 ∧ r.thoughtsTokens = 0 := by
  cases hn : env.numPages with
  | none =>
      rw [runEvents, hn] at hr
      simp [insertedUsage, eventUsage] at hr
  | some n =>
      rw [insertedUsage_runEvents documentId env n hn] at hr
      rcases List.mem_filterMap.mp hr with ⟨i, _, hi⟩
      cases hres : (env.pages (i + 1)).result with
      | failure => rw [successUsageRow, hres] at hi; cases hi
      | success d usage =>
          cases usage with
          | none => rw [successUsageRow, hres] at hi; cases hi
          | some u =>
              rw [successUsageRow, hres] at hi
              cases hi
              simp [usageRowOf, mkTokenUsage]

/-- Witness for claim C10: the one-page sample run persists a usage row, and
the invariant holds on it. -/
theorem claim_C10_witness :
    usageRowOf "doc-1" (mkTokenUsage "req-1" sampleUsage 15 0) ∈
        insertedUsage (runEvents "doc-1" sampleEnv) ∧
      (usageRowOf "doc-1" (mkTokenUsage "req-1" sampleUsage 15 0)).outputTokens =
        (usageRowOf "doc-1" (mkTokenUsage "req-1" sampleUsage 15 0)).candidatesTokens :=
  ⟨by decide,
    (claim_C10_usage_invariant "doc-1" sampleEnv
      (usageRowOf "doc-1" (mkTokenUsage "req-1" sampleUsage 15 0)) (by decide)).1⟩

/-- Claim C8: reading a document or its extraction status for a nonexistent id
fails with the user-visible error `"Document not found"`, and for an existing
id both reads return the document, respectively its id, current status and
extraction-run identifier. -/
theorem claim_C8_not_found (s : Store) (documentId : String) :
    (findDoc s.documents documentId = none →
      getDocument s documentId = Except.error "Document not found" ∧
        getExtractionStatus s documentId = Except.error "Document not found") ∧
    (∀ d, findDoc s.documents documentId = some d →
      getDocument s documentId = Except.ok d ∧
        getExtractionStatus s documentId =
          Except.ok ⟨d.documentId, d.extractionStatus, d.extractionId⟩) := by
  constructor
  · intro h
    constructor <;> simp [getDocument, getExtractionStatus, h]
  · intro d h
    constructor <;> simp [getDocument, getExtractionStatus, h]

/-- Witness for claim C8: on a one-document store, a missing id yields the
not-found error and the present id yields the document. -/
theorem claim_C8_witness :
    (getDocument docStore1 "missing" = Except.error "Document not found" ∧
      getExtractionStatus docStore1 "missing" = Except.error "Document not found") ∧
    (getDocument docStore1 "doc-1" = Except.ok sampleDocRow ∧
      getExtractionStatus docStore1 "doc-1" =
        Except.ok ⟨"doc-1", Status.IDEAL, none⟩) :=
  ⟨(claim_C8_not_found docStore1 "missing").1 (by decide),
    (claim_C8_not_found docStore1 "doc-1").2 sampleDocRow (by decide)⟩

/-- Claim C7: a page record written with nullable array elements round-trips
exactly through the extracted-data query — same lengths, same positional
values including nulls, and the uncertainty list — and the per-document page
list is ordered by page number ascending.  The last conjunct is the claim's
concrete example. -/
theorem claim_C7_roundtrip (documentId : String) (pd : ExtractedPODData) (s : Store) :
    (∃ r ∈ getExtractedData (saveExtractedPageData documentId pd s) documentId,
        r.containerNumbers = pd.containerNumbers ∧
        r.containerSizes = pd.containerSizes ∧
        r.fullEmptyStatuses = pd.fullEmptyStatuses ∧
        r.unsureFields = pd.unsureFields ∧
        r.pageNumber = pd.pageNumber) ∧
    (getExtractedData (saveExtractedPageData documentId pd s) documentId).Pairwise
      byPageNumberAsc ∧
    getExtractedData (saveExtractedPageData "doc-1" nullArraysPage emptyStore) "doc-1" =
      [pageRowOf "doc-1" nullArraysPage] := by
  refine ⟨⟨pageRowOf documentId pd, ?_, rfl, rfl, rfl, rfl, rfl⟩, ?_, by decide⟩
  · rw [getExtractedData, List.mem_insertionSort, List.mem_filter]
    refine ⟨?_, by simp [pageRowOf]⟩
    simp [saveExtractedPageData]
  · exact List.sorted_insertionSort byPageNumberAsc _

theorem parseLimit_bounds (x : Option Int) (l : Nat) (h : parseLimit x = some l) :
    1 ≤ l ∧ l ≤ 100 := by
  cases x with
  | none =>
      rw [parseLimit] at h
      cases h
      omega
  | some li =>
      rw [parseLimit] at h
      by_cases hc : 0 < li ∧ li ≤ 100
      · rw [if_pos hc] at h
        cases h
        omega
      · rw [if_neg hc] at h
        cases h

/-- Claim C6: `listDocuments` orders by creation time descending and paginates
by a validated limit (positive, at most 100, default 20) and offset
(non-negative, default 0); on a 5-document store with distinct creation
times, `limit=2, offset=0` returns the 2 most recent documents and
`limit=2, offset=2` the next 2. -/
theorem claim_C6_list_documents (raw : Option RawListInput) (l o : Nat) (s : Store)
    (hp : parseListInput raw = some (l, o)) :
    (1 ≤ l ∧ l ≤ 100) ∧
    parseListInput none = some (20, 0) ∧
    parseListInput (some (RawListInput.mk none none)) = some (20, 0) ∧
    parseListInput (some (RawListInput.mk (some 101) (some 0))) = none ∧
    parseListInput (some (RawListInput.mk (some 0) (some 0))) = none ∧
    parseListInput (some (RawListInput.mk (some 10) (some (-1)))) = none ∧
    (listDocuments s l o).Pairwise byCreatedAtDesc ∧
    listDocuments fiveDocStore 2 0 = [listedDoc "e" 5, listedDoc "d" 4] ∧
    listDocuments fiveDocStore 2 2 = [listedDoc "c" 3, listedDoc "b" 2] := by
  refine ⟨?_, by decide, by decide, by decide, by decide, by decide, ?_, by decide, by decide⟩
  · cases raw with
    | none =>
        rw [parseListInput] at hp
        cases hp
        decide
    | some raw =>
        rw [parseListInput] at hp
        cases hl : parseLimit raw.limit with
        | none =>
            rw [hl] at hp
            cases ho : parseOffset raw.offset <;> rw [ho] at hp <;> cases hp
        | some lv =>
            rw [hl] at hp
            cases ho : parseOffset raw.offset with
            | none => rw [ho] at hp; cases hp
            | some ov =>
                rw [ho] at hp
                cases hp
                exact parseLimit_bounds raw.limit _ hl
  · rw [listDocuments]
    exact List.Pairwise.sublist
      ((List.take_sublist _ _).trans (List.drop_sublist _ _))
      (List.sorted_insertionSort byCreatedAtDesc s.documents)

/-- Witness for claim C6: the validated input `limit=2, offset=2` satisfies the
bounds, and the concrete 5-document pagination slices hold. -/
theorem claim_C6_witness :
    (1 ≤ 2 ∧ 2 ≤ 100) ∧
    listDocuments fiveDocStore 2 0 = [listedDoc "e" 5, listedDoc "d" 4] ∧
    listDocuments fiveDocStore 2 2 = [listedDoc "c" 3, listedDoc "b" 2] :=
  ⟨(claim_C6_list_documents (some (RawListInput.mk (some 2) (some 2))) 2 2 fiveDocStore
      (by decide)).1,
    (claim_C6_list_documents (some (RawListInput.mk (some 2) (some 2))) 2 2 fiveDocStore
      (by decide)).2.2.2.2.2.2.2.1,
    (claim_C6_list_documents (some (RawListInput.mk (some 2) (some 2))) 2 2 fiveDocStore
      (by decide)).2.2.2.2.2.2.2.2⟩

/-- Claim C4: a run writes PROCESSING (with its fresh extraction-run id) as its
very first store write, before any page work; the status writes of the run
are exactly PROCESSING followed by a terminal COMPLETED or FAILED; and any
subsequence of statuses a poller can observe (starting from the initial
IDEAL) is monotone along IDEAL → PROCESSING → \x7bCOMPLETED, FAILED\x7d. -/
theorem claim_C4_status_monotonic (documentId : String) (env : RunEnv)
    (obs : List Status)
    (hobs : obs.Sublist (Status.IDEAL :: statusSeq (runEvents documentId env))) :
    (runEvents documentId env).head? =
        some (Event.statusWrite documentId Status.PROCESSING (some env.extractionId)) ∧
    statusSeq (runEvents documentId env) = [Status.PROCESSING, runTerminalStatus env] ∧
    (runTerminalStatus env = Status.COMPLETED ∨ runTerminalStatus env = Status.FAILED) ∧
    obs.Pairwise fun a b => statusRank a ≤ statusRank b := by
  have hseq := statusSeq_runEvents documentId env
  refine ⟨rfl, hseq, ?_, ?_⟩
  · cases h : env.numPages <;> simp [runTerminalStatus, h]
  · have hfull : (Status.IDEAL :: statusSeq (runEvents documentId env)).Pairwise
        fun a b => statusRank a ≤ statusRank b := by
      rw [hseq]
      cases h : env.numPages with
      | none => simp only [runTerminalStatus, h]; decide
      | some n => simp only [runTerminalStatus, h]; decide
    exact List.Pairwise.sublist hobs hfull

/-- Witness for claim C4: a poller of the one-page sample run that samples the
initial IDEAL and the final COMPLETED observes a monotone sequence, and the
run's status writes are PROCESSING then COMPLETED. -/
theorem claim_C4_witness :
    ([Status.IDEAL, Status.COMPLETED].Pairwise fun a b => statusRank a ≤ statusRank b) ∧
    statusSeq (runEvents "doc-1" sampleEnv) = [Status.PROCESSING, Status.COMPLETED] :=
  ⟨(claim_C4_status_monotonic "doc-1" sampleEnv [Status.IDEAL, Status.COMPLETED]
      (by decide)).2.2.2,
    (claim_C4_status_monotonic "doc-1" sampleEnv [Status.IDEAL, Status.COMPLETED]
      (by decide)).2.1⟩

/-- Counterexample to claim C1: a one-page document whose single page attempt
throws.  The catch block of `extractPODDataFromPDF` only pushes the
placeholder onto the in-memory result array and never persists it, so zero
page rows (not one) exist for the document after the run. -/
theorem claim_C1_counterexample : ¬ claimC1Persisted "doc-1" failEnv1 1 docStore1 := by
  simp only [claimC1Persisted]
  decide

/-- Claim C1 (amended): for a document whose PDF parses to `n` pages, the
run's returned array has exactly `n` entries with distinct page numbers
`1..n`, placeholders standing in for failed pages; but only the successful
pages' records are persisted — a failed page leaves no persisted row at all
(in particular no placeholder row). -/
theorem claim_C1_pages_persisted (documentId : String) (env : RunEnv) (n : Nat)
    (s : Store) (hn : env.numPages = some n) :
    (extractPODDataFromPDF documentId env s).1 = some (runResultList env n) ∧
    (runResultList env n).map (fun p => p.pageNumber) =
      (List.range n).map (fun i => i + 1) ∧
    ((runResultList env n).map fun p => p.pageNumber).Nodup ∧
    (runResultList env n).length = n ∧
    (∀ k < n, (env.pages (k + 1)).result = ModelResult.failure →
      (runResultList env n)[k]? = some (placeholderData (k + 1))) ∧
    ((extractPODDataFromPDF documentId env s).2.pages =
      s.pages ++ (List.range n).filterMap fun i =>
        successPageRow documentId (i + 1) (env.pages (i + 1))) ∧
    (∀ k < n, (env.pages (k + 1)).result = ModelResult.failure →
      ∀ r ∈ insertedPages (runEvents documentId env), r.pageNumber ≠ k + 1) := by
  have hmap : (runResultList env n).map (fun p => p.pageNumber) =
      (List.range n).map fun i => i + 1 := by
    rw [runResultList_eq_map, List.map_map]
    exact List.map_congr_left fun i _ => pageAttemptResult_pageNumber (i + 1) _
  refine ⟨?_, hmap, ?_, ?_, ?_, ?_, ?_⟩
  · simp [extractPODDataFromPDF, hn]
  · rw [hmap]
    exact (List.nodup_range n).map Nat.succ_injective
  · rw [runResultList_eq_map]
    simp
  · intro k hk hfail
    rw [runResultList_eq_map, List.getElem?_map, List.getElem?_range hk]
    simp [pageAttemptResult, hfail]
  · show ((runEvents documentId env).foldl applyEvent s).pages = _
    rw [pages_foldl, insertedPages_runEvents documentId env n hn]
  · intro k hk hfail r hr hcontra
    rw [insertedPages_runEvents documentId env n hn] at hr
    rcases List.mem_filterMap.mp hr with ⟨i, hi, hrow⟩
    have hpn := (successPageRow_pageNumber documentId (i + 1) _ r hrow).1
    have hik : i = k := by omega
    subst hik
    rw [successPageRow, hfail] at hrow
    cases hrow

/-- Witness for claim C1's amended theorem: the two-page run with a failing
second page returns two entries with page numbers 1 and 2. -/
theorem claim_C1_witness :
    (extractPODDataFromPDF "doc-1" mixedEnv docStore1).1 = some (runResultList mixedEnv 2) ∧
    (runResultList mixedEnv 2).length = 2 ∧
    (runResultList mixedEnv 2).map (fun p => p.pageNumber) =
      (List.range 2).map (fun i => i + 1) :=
  ⟨(claim_C1_pages_persisted "doc-1" mixedEnv 2 docStore1 rfl).1,
    (claim_C1_pages_persisted "doc-1" mixedEnv 2 docStore1 rfl).2.2.2.1,
    (claim_C1_pages_persisted "doc-1" mixedEnv 2 docStore1 rfl).2.1⟩

/-- Counterexample to claim C2: in the two-page run whose page 2 fails, the
document does finish COMPLETED but no page row for page 2 is persisted at
all, so there is no persisted placeholder record to inspect. -/
theorem claim_C2_counterexample : ¬ claimC2Persisted "doc-1" mixedEnv 2 docStore1 := by
  simp only [claimC2Persisted]
  decide

/-- Claim C2 (amended): when exactly one page `k` of an `n`-page run fails and
all others succeed, the run's returned array holds the placeholder (all
arrays empty, `unsureFields = ["*all*"]`) at position `k`, no page row for
page `k` is persisted, every other page's extracted record is persisted and
returned unchanged, and the document's final status is COMPLETED, not
FAILED. -/
theorem claim_C2_page_failure (documentId : String) (env : RunEnv) (n k : Nat) (s : Store)
    (hn : env.numPages = some n) (hk1 : 1 ≤ k) (hkn : k ≤ n)
    (hfail : (env.pages k).result = ModelResult.failure)
    (_hothers : ∀ j < n, j + 1 ≠ k → (env.pages (j + 1)).result ≠ ModelResult.failure)
    (hs : (findDoc s.documents documentId).isSome) :
    (runResultList env n)[k - 1]? = some (placeholderData k) ∧
    (placeholderData k).containerNumbers = [] ∧
    (placeholderData k).containerSizes = [] ∧
    (placeholderData k).fullEmptyStatuses = [] ∧
    (placeholderData k).unsureFields = ["*all*"] ∧
    (∀ r ∈ insertedPages (runEvents documentId env), r.pageNumber ≠ k) ∧
    (∀ j d u, 1 ≤ j → j ≤ n → (env.pages j).result = ModelResult.success d u →
      pageRowOf documentId (mkPageData j d) ∈ insertedPages (runEvents documentId env) ∧
      (runResultList env n)[j - 1]? = some (mkPageData j d)) ∧
    getStatus (extractPODDataFromPDF documentId env s).2 documentId =
      some Status.COMPLETED := by
  refine ⟨?_, rfl, rfl, rfl, rfl, ?_, ?_, ?_⟩
  · have hklt : k - 1 < n := by omega
    rw [runResultList_eq_map, List.getElem?_map, List.getElem?_range hklt]
    simp only [Option.map_some']
    rw [show k - 1 + 1 = k from by omega]
    simp [pageAttemptResult, hfail]
  · intro r hr hcontra
    rw [insertedPages_runEvents documentId env n hn] at hr
    rcases List.mem_filterMap.mp hr with ⟨i, hi, hrow⟩
    have hpn := (successPageRow_pageNumber documentId (i + 1) _ r hrow).1
    have hik : i + 1 = k := by omega
    rw [hik] at hrow
    rw [successPageRow, hfail] at hrow
    cases hrow
  · intro j d u h1 h2 hres
    constructor
    · rw [insertedPages_runEvents documentId env n hn]
      refine List.mem_filterMap.mpr ⟨j - 1, List.mem_range.mpr (by omega), ?_⟩
      rw [show j - 1 + 1 = j from by omega]
      simp [successPageRow, hres]
    · have hjlt : j - 1 < n := by omega
      rw [runResultList_eq_map, List.getElem?_map, List.getElem?_range hjlt]
      simp only [Option.map_some']
      rw [show j - 1 + 1 = j from by omega]
      simp [pageAttemptResult, hres, mkPageData]
  · have h2 : (extractPODDataFromPDF documentId env s).2 =
        (runEvents documentId env).foldl applyEvent s := rfl
    rw [h2, getStatus_run documentId env s hs]
    simp [runTerminalStatus, hn]

/-- Witness for claim C2's amended theorem: the two-page run whose page 2
fails returns the placeholder at position 2 and finishes COMPLETED. -/
theorem claim_C2_witness :
    (runResultList mixedEnv 2)[2 - 1]? = some (placeholderData 2) ∧
    getStatus (extractPODDataFromPDF "doc-1" mixedEnv docStore1).2 "doc-1" =
      some Status.COMPLETED :=
  ⟨(claim_C2_page_failure "doc-1" mixedEnv 2 2 docStore1 rfl (by omega) (by omega) rfl
      (by decide) (by decide)).1,
    (claim_C2_page_failure "doc-1" mixedEnv 2 2 docStore1 rfl (by omega) (by omega) rfl
      (by decide) (by decide)).2.2.2.2.2.2.2⟩

/-- Counterexample to claim C3: in the one-page sample run starting at time 0,
the page call begins at time 10 and its usage is saved at time 15, so the
elapsed time since the page call began is 5 — but the persisted row carries
`durationMs = 15`, the elapsed time since the whole run began
(`Date.now() - startTime` with the run-level `startTime`). -/
theorem claim_C3_counterexample : ¬ claimC3Durations "doc-1" sampleEnv 1 := by
  simp only [claimC3Durations]
  decide

theorem length_filterMap_range_of_isSome {β : Type} (f : Nat → Option β) (n : Nat)
    (h : ∀ k < n, (f k).isSome) :
    ((List.range n).filterMap f).length = n := by
  induction n with
  | zero => simp
  | succ n ih =>
      rw [List.range_succ, List.filterMap_append, List.length_append,
        ih fun k hk => h k (by omega)]
      rcases Option.isSome_iff_exists.mp (h n (by omega)) with ⟨b, hb⟩
      simp [hb]

/-- Claim C3 (amended): each page whose model call succeeds and reports usage
persists exactly one usage row — the rows are, in order, exactly the rows of
the usage-reporting pages (so a 3-page document with per-page usage yields
three independent rows, not one aggregate), each carrying its page's fresh
request id and defaulting missing token categories to 0 — but the persisted
duration is the wall-clock time elapsed since the whole run began, not since
that page's call began. -/
theorem claim_C3_usage_records (documentId : String) (env : RunEnv) (n : Nat)
    (hn : env.numPages = some n) :
    (insertedUsage (runEvents documentId env) =
      (List.range n).filterMap fun i =>
        successUsageRow documentId (i + 1) (env.pages (i + 1)) env.startTime) ∧
    ((∀ k < n, ∃ d u, (env.pages (k + 1)).result = ModelResult.success d (some u)) →
      (insertedUsage (runEvents documentId env)).length = n) ∧
    (∀ r ∈ insertedUsage (runEvents documentId env),
      ∃ k < n, r.requestId = (env.pages (k + 1)).requestId ∧
        r.toolUsePromptTokens = 0 ∧ r.cachedContentTokens = 0 ∧ r.thoughtsTokens = 0 ∧
        r.durationMs = ((env.pages (k + 1)).saveTime : Int) - (env.startTime : Int)) := by
  have heq := insertedUsage_runEvents documentId env n hn
  refine ⟨heq, ?_, ?_⟩
  · intro h
    rw [heq]
    refine length_filterMap_range_of_isSome _ n fun k hk => ?_
    rcases h k hk with ⟨d, u, hres⟩
    rw [successUsageRow, hres]
    rfl
  · intro r hr
    rw [heq] at hr
    rcases List.mem_filterMap.mp hr with ⟨i, hi, hrow⟩
    refine ⟨i, List.mem_range.mp hi, ?_⟩
    cases hres : (env.pages (i + 1)).result with
    | failure => rw [successUsageRow, hres] at hrow; cases hrow
    | success d usage =>
        cases usage with
        | none => rw [successUsageRow, hres] at hrow; cases hrow
        | some u =>
            rw [successUsageRow, hres] at hrow
            cases hrow
            simp [usageRowOf, mkTokenUsage]

/-- Witness for claim C3's amended theorem: the three-page run persists three
independent usage rows, one per page, with total tokens 100, 150, 200 and
durations measured from the run start. -/
theorem claim_C3_witness :
    (insertedUsage (runEvents "doc-1" usageEnv3)).length = 3 ∧
    (insertedUsage (runEvents "doc-1" usageEnv3)).map (fun r => r.totalTokens) =
      [100, 150, 200] ∧
    (insertedUsage (runEvents "doc-1" usageEnv3)).map (fun r => r.durationMs) =
      [15, 25, 35] :=
  ⟨(claim_C3_usage_records "doc-1" usageEnv3 3 rfl).2.1
      (by
        intro k hk
        interval_cases k <;> exact ⟨_, _, rfl⟩),
    by decide, by decide⟩

/-- Counterexample to claim C5 at a concrete upload call: the tRPC `upload`
mutation does return the new id with initial status IDEAL, but it never
starts extraction (the handler only logs a TODO), so the claim's conjunction
fails. -/
theorem claim_C5_counterexample :
    ¬ ((documentRouterUpload sampleUploadInput "doc-9" 7 emptyStore).1.documentId =
          "doc-9" ∧
        (documentRouterUpload sampleUploadInput "doc-9" 7 emptyStore).1.extractionStatus =
          Status.IDEAL ∧
        (documentRouterUpload sampleUploadInput "doc-9" 7 emptyStore).2.2 = true) := by
  decide

/-- Claim C5 (amended): the tRPC `upload` mutation returns the created
document's id together with its initial status IDEAL immediately but never
starts extraction; the express `POST /api/upload-document` endpoint creates
the document with initial status IDEAL, fires extraction asynchronously
without awaiting it (its response is produced before any extraction write:
the store at response time has the new row and untouched pages), and returns
the document id in a body that carries no status field. -/
theorem claim_C5_upload (input : UploadInput) (req : ExpressUploadRequest)
    (newId : String) (createdAt : Nat) (s : Store)
    (name : String) (size : Nat) (hfile : req.file = some (name, size))
    (userId instr : String) (huser : req.userId = some userId)
    (hinstr : req.instructionNumber = some instr) :
    (documentRouterUpload input newId createdAt s).1 =
      UploadResponse.mk newId Status.IDEAL ∧
    (documentRouterUpload input newId createdAt s).2.2 = false ∧
    (∃ row : DocumentRow,
      (documentRouterUpload input newId createdAt s).2.1.documents =
        s.documents ++ [row] ∧
      row.documentId = newId ∧ row.extractionStatus = Status.IDEAL) ∧
    (expressUploadDocument req newId createdAt s).1 =
      ExpressUploadResult.ok newId "Document uploaded successfully. Processing started." ∧
    (expressUploadDocument req newId createdAt s).2.2 = true ∧
    (expressUploadDocument req newId createdAt s).2.1.pages = s.pages ∧
    (∃ row : DocumentRow,
      (expressUploadDocument req newId createdAt s).2.1.documents =
        s.documents ++ [row] ∧
      row.documentId = newId ∧ row.extractionStatus = Status.IDEAL) := by
  rcases req with ⟨file, userId0, instr0, companyId0, branchId0⟩
  simp only at hfile huser hinstr
  subst hfile
  subst huser
  subst hinstr
  exact ⟨rfl, rfl, ⟨_, rfl, rfl, rfl⟩, rfl, rfl, rfl, ⟨_, rfl, rfl, rfl⟩⟩

/-- Witness for claim C5's amended theorem: on concrete inputs the tRPC upload
does not fire extraction while the express endpoint does and acknowledges
with the document id. -/
theorem claim_C5_witness :
    (documentRouterUpload sampleUploadInput "doc-9" 7 emptyStore).2.2 = false ∧
    (expressUploadDocument sampleExpressReq "doc-9" 7 emptyStore).2.2 = true ∧
    (expressUploadDocument sampleExpressReq "doc-9" 7 emptyStore).1 =
      ExpressUploadResult.ok "doc-9" "Document uploaded successfully. Processing started." :=
  ⟨(claim_C5_upload sampleUploadInput sampleExpressReq "doc-9" 7 emptyStore "pod.pdf" 1234
      rfl "user-1" "INS-1" rfl rfl).2.1,
    (claim_C5_upload sampleUploadInput sampleExpressReq "doc-9" 7 emptyStore "pod.pdf" 1234
      rfl "user-1" "INS-1" rfl rfl).2.2.2.2.1,
    (claim_C5_upload sampleUploadInput sampleExpressReq "doc-9" 7 emptyStore "pod.pdf" 1234
      rfl "user-1" "INS-1" rfl rfl).2.2.2.1⟩

end POD
